import Mathlib

/-!
Shallow embedding of the GraphQL transport/error-normalization core of the
repository: GraphQLService (src/unnamed/part_008, file graphql.service.ts)
and authInterceptor (src/src/app/services/auth.interceptor.ts).

Modelling conventions:
- JavaScript optional fields become Option.
- JavaScript string truthiness (empty string is falsy) is modelled explicitly
  wherever the source tests a string with it.
- The top-level data field of a GraphQL response envelope is an object in the
  protocol, and objects are always truthy in JavaScript, so the source test
  of not response.data holds exactly when the field is absent or null; it is
  modelled as Option with none meaning absent-or-null.
- Observables collapse to values: the map/catchError pipe of execute becomes
  the total function execPipeline from the HTTP outcome to Except, where an
  Except.error models a thrown Error carrying only a message string.
-/

/-- Substring test over character lists, modelling JavaScript
String.prototype.includes (an empty pattern is found everywhere). -/
def startsWithChars : List Char → List Char → Bool
  | _, [] => true
  | [], _ :: _ => false
  | c :: cs, p :: ps => c == p && startsWithChars cs ps

/-- Recursive search used by jsIncludes. -/
def hasSubstringChars : List Char → List Char → Bool
  | [], pat => pat.isEmpty
  | c :: cs, pat => startsWithChars (c :: cs) pat || hasSubstringChars cs pat

/-- JavaScript url.includes(pat). -/
def jsIncludes (s pat : String) : Bool :=
  hasSubstringChars s.data pat.data

/-- JavaScript String.prototype.toLowerCase restricted to the ASCII range the
interceptor compares against. -/
def jsToLower (s : String) : String :=
  String.mk (s.data.map Char.toLower)

/-- Truthiness of an optional string in JavaScript: present and non-empty. -/
def tokenTruthy : Option String → Bool
  | some t => t != ""
  | none => false

/-- Extensions object of a GraphQL error (interface GraphQLError, field
extensions with optional code). -/
structure Extensions where
  code : Option String
deriving DecidableEq, Repr

/-- One segment of a GraphQL error path: string or number. -/
inductive PathSeg where
  | str (s : String)
  | num (n : Int)
deriving DecidableEq, Repr

/-- JavaScript stringification of a path segment as used by path.join. -/
def PathSeg.render : PathSeg → String
  | .str s => s
  | .num n => toString n

/-- Interface GraphQLError of graphql.service.ts (locations omitted: never
read by the code). -/
structure GraphQLError where
  message : String
  path : Option (List PathSeg)
  extensions : Option Extensions
deriving DecidableEq, Repr

/-- Interface GraphQLResponse of graphql.service.ts. -/
structure GraphQLResponse (α : Type) where
  data : Option α
  errors : Option (List GraphQLError)

/-- Per-error message of GraphQLService.createGraphQLError: prefix with the
extensions code in brackets when that code is truthy, then append the
dot-joined path when present and non-empty. -/
def perErrorMessage (err : GraphQLError) : String :=
  let m := err.message
  let m :=
    match err.extensions with
    | some ext =>
      match ext.code with
      | some c => if c != "" then "[" ++ c ++ "] " ++ m else m
      | none => m
    | none => m
  match err.path with
  | some p =>
    if p.length > 0 then
      m ++ " (path: " ++ String.intercalate "." (p.map PathSeg.render) ++ ")"
    else m
  | none => m

/-- Combined message of GraphQLService.createGraphQLError: the per-error
messages joined with a semicolon separator. -/
def createGraphQLErrorMsg (errs : List GraphQLError) : String :=
  String.intercalate "; " (errs.map perErrorMessage)

/-- Error body entry as read dynamically by the interceptor: both the message
and the extensions code may be absent. -/
structure BodyError where
  message : Option String
  extensions : Option Extensions
deriving DecidableEq, Repr

/-- Parsed error body of an HttpErrorResponse, as accessed via
error.error with an optional errors array. -/
structure ErrorBody where
  errors : Option (List BodyError)
deriving DecidableEq, Repr

/-- The parts of an Angular HttpErrorResponse that the two source files read:
numeric status, message, statusText and the parsed response body. -/
structure HttpErrorResponse where
  status : Int
  message : String
  statusText : String
  error : Option ErrorBody
deriving DecidableEq, Repr

/-- Failure value entering GraphQLService.handleError: either a transport
HttpErrorResponse or a JavaScript Error thrown earlier in the pipe, of which
only the message survives. -/
inductive PipeError where
  | http (e : HttpErrorResponse)
  | js (message : String)

/-- Message classification of GraphQLService.handleError. -/
def gqlHandleErrorMsg : PipeError → String
  | .http e =>
    if e.status = 0 then
      "Error de conexión. Verifica que el servidor esté disponible."
    else if e.status = 401 then
      "No autorizado. Por favor, inicia sesión nuevamente."
    else if e.status = 403 then
      "Acceso denegado. No tienes permisos para esta operación."
    else if e.status ≥ 500 then
      "Error del servidor. Por favor, intenta más tarde."
    else
      "Error HTTP " ++ toString e.status ++ ": " ++ e.message
  | .js m => m

/-- Success branch of the map operator in GraphQLService.execute: throw the
combined GraphQL error when the errors array is present and non-empty, then
throw the no-data error when data is absent, else return data. -/
def normalizeEnvelope {α : Type} (r : GraphQLResponse α) : Except String α :=
  match r.errors with
  | some es =>
    if es.length > 0 then Except.error (createGraphQLErrorMsg es)
    else
      match r.data with
      | some d => Except.ok d
      | none => Except.error "La respuesta GraphQL no contiene datos"
  | none =>
    match r.data with
    | some d => Except.ok d
    | none => Except.error "La respuesta GraphQL no contiene datos"

/-- Whole pipe of GraphQLService.execute after the POST: a transport failure
goes straight to handleError; a 2xx envelope is normalized, and anything it
throws is also routed through handleError, which keeps only the message.
An Except.error carries exactly the message string of the single Error the
caller observes. -/
def execPipeline {α : Type} (resp : Except HttpErrorResponse (GraphQLResponse α)) :
    Except String α :=
  match resp with
  | .error he => Except.error (gqlHandleErrorMsg (PipeError.http he))
  | .ok env =>
    match normalizeEnvelope env with
    | .ok d => Except.ok d
    | .error m => Except.error (gqlHandleErrorMsg (PipeError.js m))

/-- Request headers built by GraphQLService.execute: content type always,
Authorization only when the token is truthy. -/
def graphQLHeaders (token : Option String) : List (String × String) :=
  [("Content-Type", "application/json")] ++
    (if tokenTruthy token then
      [("Authorization", "Bearer " ++ token.getD "")]
    else [])

/-- Operation envelope sent by GraphQLService.execute; a none field means the
corresponding key is absent from the JSON body. -/
structure GraphQLBody (α : Type) where
  query : String
  «variables» : Option (List (String × α))
  operationName : Option String

/-- Body construction of GraphQLService.execute: the variables key is added
only when the mapping is present with at least one key, the operationName key
only when that argument is truthy. -/
def buildBody {α : Type} (op : String) (vars : Option (List (String × α)))
    (opName : Option String) : GraphQLBody α :=
  ⟨op,
    match vars with
    | some v => if v.length > 0 then some v else none
    | none => none,
    match opName with
    | some s => if s != "" then some s else none
    | none => none⟩

/-- JavaScript endsWith with a one-character suffix, as used on the configured
base URL. -/
def endsWithSlash (s : String) : Bool :=
  s.data.getLast? == some '/'

/-- JavaScript slice with arguments zero and minus one. -/
def sliceDropLast (s : String) : String :=
  String.mk s.data.dropLast

/-- Endpoint resolution of the GraphQLService constructor: strip one trailing
slash from the configured api url, then append the graphql suffix. -/
def resolveGraphQLUrl (apiUrl : String) : String :=
  (if endsWithSlash apiUrl then sliceDropLast apiUrl else apiUrl) ++ "/graphql"

/-- Third-party upload marker of the interceptor. -/
def cloudinaryMarker : String := "api.cloudinary.com"

/-- Public allowlist of the interceptor. -/
def publicEndpoints : List String := ["auth/login", "auth/register"]

/-- An outgoing HTTP request as the interceptor sees it. -/
structure HttpRequest where
  url : String
  headers : List (String × String)
deriving DecidableEq, Repr

/-- Angular HttpHeaders.set: replace any existing value for the key, else
append. -/
def setHeader (hs : List (String × String)) (k v : String) :
    List (String × String) :=
  hs.filter (fun p => p.1 != k) ++ [(k, v)]

/-- Outcome of the request half of the interceptor: the request actually
dispatched, and whether the catchError stage wraps its response. -/
structure InterceptOutcome where
  sent : HttpRequest
  errorIntercepted : Bool
deriving DecidableEq, Repr

/-- Request half of authInterceptor: a Cloudinary target is forwarded as-is
with no error interception; otherwise attach a bearer header exactly when the
target is not public and a truthy token exists, and pipe the response through
the error handler. -/
def authInterceptorSend (req : HttpRequest) (token : Option String) :
    InterceptOutcome :=
  if jsIncludes req.url cloudinaryMarker then ⟨req, false⟩
  else
    let isPublic := publicEndpoints.any (fun u => jsIncludes req.url u)
    let authReq :=
      if isPublic || !(tokenTruthy token) then req
      else ⟨req.url, setHeader req.headers "Authorization"
        ("Bearer " ++ token.getD "")⟩
    ⟨authReq, true⟩

/-- The per-entry authentication test of the interceptor: lowercase message
contains unauthorized or authentication, or the extensions code is exactly
UNAUTHENTICATED. -/
def isAuthBodyError (e : BodyError) : Bool :=
  (match e.message with
   | some m =>
     jsIncludes (jsToLower m) "unauthorized" ||
       jsIncludes (jsToLower m) "authentication"
   | none => false)
  || (e.extensions.bind Extensions.code == some "UNAUTHENTICATED")

/-- Observable side effects of the catchError stage of the interceptor: how
many session-teardown-plus-redirect pairs ran, and the error re-raised to the
caller. -/
structure GateEffects where
  teardownCount : Nat
  reraised : HttpErrorResponse
deriving DecidableEq, Repr

/-- Response half of authInterceptor: on a 401 for a non-public target, a
GraphQL target whose body carries an errors array is inspected and tears down
only on an authentication-flavoured entry; every other 401 tears down
unconditionally. The original error is always re-raised. -/
def authInterceptorOnError (url : String) (err : HttpErrorResponse) :
    GateEffects :=
  let isPublic := publicEndpoints.any (fun u => jsIncludes url u)
  let isGraphQL := jsIncludes url "/graphql"
  let bodyErrors := err.error.bind ErrorBody.errors
  let count :=
    if err.status == 401 && !isPublic then
      match bodyErrors with
      | some es =>
        if isGraphQL then (if es.any isAuthBodyError then 1 else 0) else 1
      | none => 1
    else 0
  ⟨count, err⟩

/-- Unfolding lemma for the transport branch of handleError. -/
theorem gqlHandleErrorMsg_http (s : Int) (m t : String) (b : Option ErrorBody) :
    gqlHandleErrorMsg (PipeError.http ⟨s, m, t, b⟩) =
      if s = 0 then
        "Error de conexión. Verifica que el servidor esté disponible."
      else if s = 401 then
        "No autorizado. Por favor, inicia sesión nuevamente."
      else if s = 403 then
        "Acceso denegado. No tienes permisos para esta operación."
      else if s ≥ 500 then
        "Error del servidor. Por favor, intenta más tarde."
      else
        "Error HTTP " ++ toString s ++ ": " ++ m := rfl

/-- Claim C1: for every response envelope whose errors array is present and
non-empty, execute throws the combined GraphQL error and never returns data,
even when a non-null data field is present in the same envelope. -/
theorem c1_errors_take_precedence {α : Type} (d : α) (errs : List GraphQLError)
    (h : errs ≠ []) :
    execPipeline (Except.ok ⟨some d, some errs⟩) =
      Except.error (createGraphQLErrorMsg errs) := by
  cases errs with
  | nil => exact absurd rfl h
  | cons e es => simp [execPipeline, normalizeEnvelope, gqlHandleErrorMsg]

/-- Witness for C1 at a concrete envelope holding both data and one error. -/
theorem c1_witness :
    execPipeline
        (Except.ok (⟨some 7, some [⟨"boom", none, none⟩]⟩ : GraphQLResponse Nat)) =
      Except.error (createGraphQLErrorMsg [⟨"boom", none, none⟩]) :=
  c1_errors_take_precedence 7 [⟨"boom", none, none⟩] (by decide)

/-- Counterexample to claim C2 as stated: at status 400 the thrown message is
not of the form of the claimed generic template, because the source prefixes
it with the word Error. -/
theorem c2_counterexample :
    gqlHandleErrorMsg (PipeError.http ⟨400, "Http failure", "Bad Request", none⟩) ≠
      "HTTP 400: Http failure" := by decide

/-- Claim C2 (amended): a transport failure yields exactly one error whose
message is classified in order status 0, 401, 403, at least 500, and
otherwise the generic template with an Error prefix; the body and statusText
are never inspected in this branch. -/
theorem c2_transport_classification {α : Type} (s : Int) (m t : String)
    (b : Option ErrorBody) :
    execPipeline (α := α) (Except.error ⟨s, m, t, b⟩) =
        Except.error (gqlHandleErrorMsg (PipeError.http ⟨s, m, t, b⟩))
    ∧ (s = 0 → gqlHandleErrorMsg (PipeError.http ⟨s, m, t, b⟩) =
        "Error de conexión. Verifica que el servidor esté disponible.")
    ∧ (s = 401 → gqlHandleErrorMsg (PipeError.http ⟨s, m, t, b⟩) =
        "No autorizado. Por favor, inicia sesión nuevamente.")
    ∧ (s = 403 → gqlHandleErrorMsg (PipeError.http ⟨s, m, t, b⟩) =
        "Acceso denegado. No tienes permisos para esta operación.")
    ∧ (s ≥ 500 → gqlHandleErrorMsg (PipeError.http ⟨s, m, t, b⟩) =
        "Error del servidor. Por favor, intenta más tarde.")
    ∧ (s ≠ 0 → s ≠ 401 → s ≠ 403 → s < 500 →
        gqlHandleErrorMsg (PipeError.http ⟨s, m, t, b⟩) =
          "Error HTTP " ++ toString s ++ ": " ++ m)
    ∧ (∀ u : String, ∀ c : Option ErrorBody,
        gqlHandleErrorMsg (PipeError.http ⟨s, m, u, c⟩) =
          gqlHandleErrorMsg (PipeError.http ⟨s, m, t, b⟩)) := by
  refine ⟨rfl, ?_, ?_, ?_, ?_, ?_, fun u c => rfl⟩
  · intro h
    rw [gqlHandleErrorMsg_http, if_pos h]
  · intro h
    rw [gqlHandleErrorMsg_http, if_neg (by omega), if_pos h]
  · intro h
    rw [gqlHandleErrorMsg_http, if_neg (by omega), if_neg (by omega), if_pos h]
  · intro h
    rw [gqlHandleErrorMsg_http, if_neg (by omega), if_neg (by omega),
      if_neg (by omega), if_pos h]
  · intro h0 h1 h3 h5
    rw [gqlHandleErrorMsg_http, if_neg h0, if_neg h1, if_neg h3,
      if_neg (by omega)]

/-- Witness for C2 (amended) at a concrete connectivity failure. -/
theorem c2_witness :
    gqlHandleErrorMsg (PipeError.http ⟨0, "x", "", none⟩) =
      "Error de conexión. Verifica que el servidor esté disponible." :=
  (c2_transport_classification (α := Nat) 0 "x" "" none).2.1 rfl

/-- Claim C3: for a non-empty errors array the thrown message joins with a
semicolon separator the per-error messages, each prefixed with the extensions
code in square brackets when present and suffixed with the dot-joined path
when present; in particular the single NOT_FOUND error yields the message
with the bracketed code before the text. -/
theorem c3_graphql_error_message {α : Type} (d : Option α)
    (errs : List GraphQLError) (h : errs ≠ []) :
    execPipeline (Except.ok ⟨d, some errs⟩) =
        Except.error (String.intercalate "; " (errs.map perErrorMessage))
    ∧ createGraphQLErrorMsg [⟨"Not found", none, some ⟨some "NOT_FOUND"⟩⟩] =
        "[NOT_FOUND] Not found"
    ∧ execPipeline
        (Except.ok (⟨none, some [⟨"Not found", none, some ⟨some "NOT_FOUND"⟩⟩]⟩ :
          GraphQLResponse α)) =
        Except.error "[NOT_FOUND] Not found" := by
  refine ⟨?_, by decide, ?_⟩
  · cases errs with
    | nil => exact absurd rfl h
    | cons e es =>
      simp [execPipeline, normalizeEnvelope, gqlHandleErrorMsg,
        createGraphQLErrorMsg]
  · rfl

/-- Witness for C3 at a concrete two-error envelope. -/
theorem c3_witness :
    execPipeline
        (Except.ok (⟨some 1, some [⟨"a", none, some ⟨some "X"⟩⟩, ⟨"b", none, none⟩]⟩ :
          GraphQLResponse Nat)) =
      Except.error (String.intercalate "; "
        ([⟨"a", none, some ⟨some "X"⟩⟩, ⟨"b", none, none⟩].map perErrorMessage)) :=
  (c3_graphql_error_message (some 1)
    [⟨"a", none, some ⟨some "X"⟩⟩, ⟨"b", none, none⟩] (by decide)).1

/-- Counterexample to claim C4 as stated: a GraphQL 401 on a non-public
target whose error body carries no errors array at all still triggers a
teardown, although no entry of any errors array matches the authentication
predicate. -/
theorem c4_counterexample :
    (authInterceptorOnError "/graphql"
        ⟨401, "Unauthorized", "Unauthorized", none⟩).teardownCount = 1
    ∧ (⟨401, "Unauthorized", "Unauthorized", none⟩ :
        HttpErrorResponse).error.bind ErrorBody.errors = none
    ∧ jsIncludes "/graphql" "/graphql" = true
    ∧ publicEndpoints.any (fun u => jsIncludes "/graphql" u) = false := by
  decide

/-- Claim C4 (amended): on a 401 for a non-public target, a GraphQL target
whose body carries an errors array tears down exactly when some entry matches
the authentication predicate; a GraphQL target without an errors array in the
body, and every non-GraphQL target, always triggers exactly one teardown; the
original error is re-raised in every case. -/
theorem c4_auth_gate_teardown (u : String) (e : HttpErrorResponse)
    (h1 : e.status = 401)
    (h2 : publicEndpoints.any (fun s => jsIncludes u s) = false) :
    (∀ es, jsIncludes u "/graphql" = true →
      e.error.bind ErrorBody.errors = some es →
      (authInterceptorOnError u e).teardownCount =
        (if es.any isAuthBodyError then 1 else 0))
    ∧ (e.error.bind ErrorBody.errors = none →
      (authInterceptorOnError u e).teardownCount = 1)
    ∧ (jsIncludes u "/graphql" = false →
      (authInterceptorOnError u e).teardownCount = 1)
    ∧ (authInterceptorOnError u e).reraised = e := by
  refine ⟨?_, ?_, ?_, rfl⟩
  · intro es hg hb
    simp [authInterceptorOnError, h1, h2, hg, hb]
  · intro hb
    simp [authInterceptorOnError, h1, h2, hb]
  · intro hg
    cases hb : e.error.bind ErrorBody.errors with
    | none => simp [authInterceptorOnError, h1, h2, hb]
    | some es => simp [authInterceptorOnError, h1, h2, hg, hb]

/-- Witness for C4 (amended) at a concrete non-GraphQL 401 without a body. -/
theorem c4_witness :
    (authInterceptorOnError "api/users" ⟨401, "u", "u", none⟩).teardownCount = 1 :=
  (c4_auth_gate_teardown "api/users" ⟨401, "u", "u", none⟩ rfl (by decide)).2.1 rfl

/-- Claim C5: a request whose URL contains the Cloudinary marker passes
through the interceptor completely unmodified, with no Authorization header
attached even when a token exists and with no error interception. -/
theorem c5_cloudinary_bypass (r : HttpRequest) (t : Option String)
    (h : jsIncludes r.url cloudinaryMarker = true) :
    authInterceptorSend r t = ⟨r, false⟩ := by
  simp [authInterceptorSend, h]

/-- Witness for C5 at a concrete upload URL with a token present. -/
theorem c5_witness :
    authInterceptorSend ⟨"https://api.cloudinary.com/v1/upload", []⟩ (some "tok") =
      ⟨⟨"https://api.cloudinary.com/v1/upload", []⟩, false⟩ :=
  c5_cloudinary_bypass ⟨"https://api.cloudinary.com/v1/upload", []⟩ (some "tok")
    (by decide)

/-- Claim C6: the emitted body never holds a variables key when the variables
argument is absent or an empty mapping, never holds an operationName key when
that argument is absent, and includes both unchanged when present and
non-empty. -/
theorem c6_body_key_omission {α : Type} (q : String) (vs : List (String × α))
    (w : Option (List (String × α))) (o : Option String) (s : String) :
    (buildBody (α := α) q none o).«variables» = none
    ∧ (buildBody q (some ([] : List (String × α))) o).«variables» = none
    ∧ (buildBody q w none).operationName = none
    ∧ (vs ≠ [] → (buildBody q (some vs) o).«variables» = some vs)
    ∧ (s ≠ "" → (buildBody q w (some s)).operationName = some s) := by
  refine ⟨rfl, rfl, rfl, ?_, ?_⟩
  · intro h
    cases vs with
    | nil => exact absurd rfl h
    | cons a l => simp [buildBody]
  · intro h
    simp [buildBody, h]

/-- Witness for C6 at a concrete non-empty mapping and operation name. -/
theorem c6_witness :
    (buildBody "q" (some [("x", (1 : Nat))]) (some "Op")).«variables» =
        some [("x", 1)]
    ∧ (buildBody "q" (some [("x", (1 : Nat))]) (some "Op")).operationName =
        some "Op" :=
  ⟨(c6_body_key_omission "q" [("x", (1 : Nat))] (some [("x", (1 : Nat))])
      (some "Op") "Op").2.2.2.1 (by decide),
   (c6_body_key_omission "q" [("x", (1 : Nat))] (some [("x", (1 : Nat))])
      (some "Op") "Op").2.2.2.2 (by decide)⟩

/-- Claim C7: for a configured base URL with zero or one trailing slash the
resolved endpoint is identical and equals the base without its trailing slash
followed by the graphql suffix. -/
theorem c7_url_resolution (b : String) (h : endsWithSlash b = false) :
    resolveGraphQLUrl b = b ++ "/graphql"
    ∧ resolveGraphQLUrl (b ++ "/") = b ++ "/graphql" := by
  have hdata : (b ++ "/").data = b.data ++ ['/'] := by
    rw [String.data_append]
  have hslash : endsWithSlash (b ++ "/") = true := by
    unfold endsWithSlash
    rw [hdata, List.getLast?_concat]
    rfl
  have hdrop : sliceDropLast (b ++ "/") = b := by
    unfold sliceDropLast
    rw [hdata, List.dropLast_concat]
  constructor
  · unfold resolveGraphQLUrl
    rw [h]
    rfl
  · unfold resolveGraphQLUrl
    rw [hslash]
    show sliceDropLast (b ++ "/") ++ "/graphql" = b ++ "/graphql"
    rw [hdrop]

/-- Witness for C7 at the configured development base URL. -/
theorem c7_witness :
    resolveGraphQLUrl "http://localhost:8081/mrp" =
        "http://localhost:8081/mrp" ++ "/graphql"
    ∧ resolveGraphQLUrl ("http://localhost:8081/mrp" ++ "/") =
        "http://localhost:8081/mrp" ++ "/graphql" :=
  c7_url_resolution "http://localhost:8081/mrp" (by decide)

/-- Claim C8: an envelope whose errors field is an empty array and whose data
field is present is a success, and the data travels through unchanged with no
runtime validation. -/
theorem c8_empty_errors_returns_data {α : Type} (d : α) :
    execPipeline (Except.ok ⟨some d, some []⟩) = Except.ok d := rfl

/-- Claim C9: with no token available, a request that is neither a Cloudinary
target nor public is dispatched with its headers untouched, so it carries no
Authorization header when it had none, and the transport adapter likewise
builds only the content-type header. -/
theorem c9_no_token_no_auth_header (r : HttpRequest)
    (hc : jsIncludes r.url cloudinaryMarker = false)
    (hp : publicEndpoints.any (fun u => jsIncludes r.url u) = false)
    (hh : r.headers.all (fun p => p.1 != "Authorization") = true) :
    (authInterceptorSend r none).sent = r
    ∧ (authInterceptorSend r none).sent.headers.all
        (fun p => p.1 != "Authorization") = true
    ∧ graphQLHeaders none = [("Content-Type", "application/json")] := by
  have hs : (authInterceptorSend r none).sent = r := by
    simp [authInterceptorSend, hc, tokenTruthy]
  exact ⟨hs, by rw [hs]; exact hh, rfl⟩

/-- Witness for C9 at a concrete request with only a content-type header. -/
theorem c9_witness :
    (authInterceptorSend ⟨"api/users", [("Content-Type", "application/json")]⟩
        none).sent = ⟨"api/users", [("Content-Type", "application/json")]⟩ :=
  (c9_no_token_no_auth_header
    ⟨"api/users", [("Content-Type", "application/json")]⟩
    (by decide) (by decide) (by decide)).1

/-- Claim C10: a transport failure surfaces as a single error carrying only
the classified message string; the surfaced value is fully determined by the
status and message, so neither the numeric status nor the response body of the
HttpErrorResponse reaches the caller in any other way. -/
theorem c10_error_opacity {α : Type} (s : Int) (m t u : String)
    (b c : Option ErrorBody) :
    execPipeline (α := α) (Except.error ⟨s, m, t, b⟩) =
        Except.error (gqlHandleErrorMsg (PipeError.http ⟨s, m, t, b⟩))
    ∧ execPipeline (α := α) (Except.error ⟨s, m, t, b⟩) =
        execPipeline (α := α) (Except.error ⟨s, m, u, c⟩) :=
  ⟨rfl, rfl⟩
